import Mathlib

/-!
Verification of the terminal MCP server core (Go sources) against its
natural-language specification.  The Go code is shallowly embedded:

* `internal/sse/broadcaster.go` — the event broadcaster, modelled as a pure
  state-transformer over a list of clients (the Go `map[string]*Client`
  iterated by `range`);
* `internal/executor/executor.go` — the single-shot executor, with the OS
  process boundary (`cmd.Run`) passed in as an explicit outcome value;
* `internal/session/session.go` — the persistent-session registry, with the
  spawn result, the stdout stream contents and the timeout race passed in as
  an explicit environment.
-/

/-! ## Event broadcaster (src/internal/sse/broadcaster.go) -/

/-- An SSE event (`sse.Event`).  `Data` is `interface{}` in Go and carried
opaquely here as a string; the RFC3339 timestamp is abstracted to a `Nat`
reading of the clock. -/
structure Event where
  type : String
  sessionID : String
  data : String
  timestamp : Nat
  deriving DecidableEq, Repr

/-- An SSE client (`sse.Client`): its id, its scope (`SessionID`), and its
buffered outbound channel, modelled as the FIFO list of queued events. -/
structure Client where
  id : String
  sessionID : String
  channel : List Event
  deriving DecidableEq, Repr

/-- Capacity of a client's buffered channel: `make(chan Event, 100)` in
`AddClient`. -/
def clientQueueCap : Nat := 100

/-- The broadcaster state: its registered clients.  The Go map is iterated
with `range`; the list keeps one entry per client id. -/
structure Broadcaster where
  clients : List Client
  deriving DecidableEq, Repr

/-- `AddClient`: registers a fresh client with an empty queue under its id
(a Go map assignment replaces any previous entry with the same id). -/
def Broadcaster.AddClient (b : Broadcaster) (clientID sessionID : String) :
    Broadcaster × Client :=
  let c : Client := { id := clientID, sessionID := sessionID, channel := [] }
  ({ clients := b.clients.filter (fun x => x.id ≠ clientID) ++ [c] }, c)

/-- `RemoveClient`: deletes the client with the given id, if present. -/
def Broadcaster.RemoveClient (b : Broadcaster) (clientID : String) : Broadcaster :=
  { clients := b.clients.filter (fun x => x.id ≠ clientID) }

/-- The non-blocking enqueue (`select { case client.Channel <- event: ...
default: /- drop -/ }`): appends when the buffer has room, drops otherwise. -/
def trySend (c : Client) (e : Event) : Client :=
  if c.channel.length < clientQueueCap then { c with channel := c.channel ++ [e] } else c

/-- `BroadcastToSession`: builds the event and try-sends it to every client
whose `SessionID` equals the target session id. -/
def Broadcaster.BroadcastToSession (b : Broadcaster)
    (sessionID eventType data : String) (now : Nat) : Broadcaster :=
  let e : Event := { type := eventType, sessionID := sessionID, data := data, timestamp := now }
  { clients := b.clients.map (fun c => if c.sessionID = sessionID then trySend c e else c) }

/-- `BroadcastToAll`: builds the event with scope `"all"` and try-sends it to
every registered client, whatever its scope. -/
def Broadcaster.BroadcastToAll (b : Broadcaster)
    (eventType data : String) (now : Nat) : Broadcaster :=
  let e : Event := { type := eventType, sessionID := "all", data := data, timestamp := now }
  { clients := b.clients.map (fun c => trySend c e) }

/-- A publish operation: the two entry points of the broadcaster. -/
inductive PublishOp where
  | toSession (sessionID eventType data : String)
  | toAll (eventType data : String)
  deriving DecidableEq, Repr

/-- The target scope of a publish: the session id, or the wildcard `"all"`
for `BroadcastToAll`. -/
def PublishOp.target : PublishOp → String
  | .toSession sid _ _ => sid
  | .toAll _ _ => "all"

/-- The event a publish operation constructs. -/
def PublishOp.event (op : PublishOp) (now : Nat) : Event :=
  match op with
  | .toSession sid et d => { type := et, sessionID := sid, data := d, timestamp := now }
  | .toAll et d => { type := et, sessionID := "all", data := d, timestamp := now }

/-- Whether a publish operation's scope matches a client: equality of session
ids for `BroadcastToSession`, every client for `BroadcastToAll`. -/
def PublishOp.matches (op : PublishOp) (c : Client) : Prop :=
  match op with
  | .toSession sid _ _ => c.sessionID = sid
  | .toAll _ _ => True

instance (op : PublishOp) (c : Client) : Decidable (op.matches c) := by
  cases op <;> simp [PublishOp.matches] <;> infer_instance

/-- Dispatch a publish operation on the broadcaster. -/
def publish (b : Broadcaster) (op : PublishOp) (now : Nat) : Broadcaster :=
  match op with
  | .toSession sid et d => b.BroadcastToSession sid et d now
  | .toAll et d => b.BroadcastToAll et d now

/-- What one publish does to one client, in isolation. -/
def deliverOne (op : PublishOp) (now : Nat) (c : Client) : Client :=
  match op with
  | .toSession sid et d =>
      if c.sessionID = sid then
        trySend c { type := et, sessionID := sid, data := d, timestamp := now }
      else c
  | .toAll et d => trySend c { type := et, sessionID := "all", data := d, timestamp := now }

/-! ## Single-shot executor (src/internal/executor/executor.go) -/

/-- Server configuration (`config.Config`), restricted to the fields the
executor and the session manager read.  `defaultTimeout` is in seconds. -/
structure Config where
  defaultTimeout : Nat
  platform : String
  shell : String
  deriving DecidableEq, Repr

/-- The tool-call arguments map, after the Go type assertions: a field is
`none` when the key is absent or its value has the wrong dynamic type. -/
structure ExecArgs where
  command : Option String
  timeout : Option Nat
  shell : Option String
  captureStderr : Option Bool
  deriving DecidableEq, Repr

/-- The error value of `cmd.Run`: an `*exec.ExitError` carrying
`ExitCode()` (the OS exit code, or `-1` when the process was killed by a
signal), or any other error (start failure, missing binary, ...) carrying
only its message. -/
inductive RunErr where
  | exitErr (exitCode : Int)
  | otherErr (msg : String)
  deriving DecidableEq, Repr

/-- The message `err.Error()` yields for a run error. -/
def RunErr.message : RunErr → String
  | .exitErr code => "exit status " ++ toString code
  | .otherErr msg => msg

/-- The observable outcome of `cmd.Run` at the OS boundary: the bytes the
process put in the two capture buffers, and the error, if any.  When stderr
is not captured separately the Go code points both streams at one buffer; in
that case `stdout` stands for the combined buffer. -/
structure RunOutcome where
  stdout : String
  stderr : String
  err : Option RunErr
  deriving DecidableEq, Repr

/-- The `result` map the executor builds (string keys in Go; a record here).
`exitCode = none` models the absence of the `"exit_code"` key. -/
structure SingleShotResult where
  stdout : String
  stderr : Option String
  exitCode : Option Int
  errMsg : Option String
  platform : String
  shell : String
  timeoutSeconds : Nat
  command : String
  deriving DecidableEq, Repr

/-- A tool result: `mcp.NewToolResultError` or `mcp.NewToolResultText`
(the latter keeping the structured map it was formatted from). -/
inductive ExecuteResult where
  | errorResult (msg : String)
  | textResult (r : SingleShotResult)
  deriving DecidableEq, Repr

/-- The exit code a single-shot result carries, when it carries one. -/
def resultExitCode : ExecuteResult → Option Int
  | .errorResult _ => none
  | .textResult r => r.exitCode

/-- `Executor.Execute`: argument extraction, platform dispatch, run, and
result-map assembly.  The process run itself is the `runOutcome` input. -/
def Executor.Execute (cfg : Config) (args : ExecArgs) (runOutcome : RunOutcome) :
    ExecuteResult :=
  match args.command with
  | none => .errorResult "Command is required"
  | some command =>
    if command = "" then .errorResult "Command is required"
    else
      let timeout := match args.timeout with
        | some t => if t > 0 then t else cfg.defaultTimeout
        | none => cfg.defaultTimeout
      let shell := match args.shell with
        | some s => if s ≠ "" then s else cfg.shell
        | none => cfg.shell
      let captureStderr := match args.captureStderr with
        | some b => b
        | none => false
      if cfg.platform = "darwin" ∨ cfg.platform = "linux" then
        let base : SingleShotResult :=
          { stdout := runOutcome.stdout
            stderr := if captureStderr then some runOutcome.stderr else none
            exitCode := none
            errMsg := none
            platform := cfg.platform
            shell := shell
            timeoutSeconds := timeout
            command := command }
        match runOutcome.err with
        | none => .textResult { base with exitCode := some 0 }
        | some (.exitErr code) =>
            .textResult { base with exitCode := some code
                                    errMsg := some (RunErr.exitErr code).message }
        | some (.otherErr msg) => .textResult { base with errMsg := some msg }
      else
        .errorResult ("Platform " ++ cfg.platform ++ " not supported")

/-! ## Persistent sessions (src/internal/session/session.go) -/

/-- A persistent shell session (`session.ShellSession`).  `exited` models
`Cmd.ProcessState != nil && Cmd.ProcessState.Exited()`; the stream handles
are owned by the session and live exactly as long as it does. -/
structure ShellSession where
  id : String
  pid : Nat
  exited : Bool
  shell : String
  workingDir : String
  created : Nat
  lastUsed : Nat
  deriving DecidableEq, Repr

/-- The registry's map `map[string]*ShellSession`, as an association list
with at most one entry per id (every mutation below preserves that). -/
abbrev Sessions := List (String × ShellSession)

/-- Map lookup. -/
def slookup (ss : Sessions) (sid : String) : Option ShellSession :=
  (ss.find? (fun p => p.1 == sid)).map Prod.snd

/-- Map assignment `sm.sessions[sid] = s` (replaces any previous entry). -/
def sset (ss : Sessions) (sid : String) (s : ShellSession) : Sessions :=
  ss.filter (fun p => p.1 != sid) ++ [(sid, s)]

/-- Map deletion `delete(sm.sessions, sid)`. -/
def sremove (ss : Sessions) (sid : String) : Sessions :=
  ss.filter (fun p => p.1 != sid)

/-- The session manager (`session.Manager`): the registry and the
configuration it was built with. -/
structure Manager where
  sessions : Sessions
  config : Config
  deriving DecidableEq, Repr

/-- Whether the registry currently holds an entry for `sid`. -/
def hasSession (m : Manager) (sid : String) : Bool :=
  (slookup m.sessions sid).isSome

/-- `GetOrCreateSession`.  The OS boundary (pipe creation plus `cmd.Start`)
is the `spawnResult` input: `.ok pid` on success, `.error e` carrying the
formatted failure message of whichever step failed.  `now` is the
`time.Now()` reading. -/
def GetOrCreateSession (m : Manager) (sessionID shell : String)
    (spawnResult : Except String Nat) (now : Nat) :
    Except String (ShellSession × Manager) :=
  match slookup m.sessions sessionID with
  | some s =>
      let s2 := { s with lastUsed := now }
      .ok (s2, { m with sessions := sset m.sessions sessionID s2 })
  | none =>
      let sh := if shell = "" then m.config.shell else shell
      match spawnResult with
      | .error e => .error e
      | .ok pid =>
          let s : ShellSession :=
            { id := sessionID, pid := pid, exited := false, shell := sh,
              workingDir := "", created := now, lastUsed := now }
          .ok (s, { m with sessions := sset m.sessions sessionID s })

/-- A tool result of the session path: `mcp.NewToolResultText` or
`mcp.NewToolResultError`. -/
inductive CallToolResult where
  | text (msg : String)
  | error (msg : String)
  deriving DecidableEq, Repr

/-- What the scanning goroutine sends: the buffered output (on sentinel or
on clean end-of-stream) over `outputChan`, or a scan error over
`errorChan`. -/
inductive ScanMsg where
  | output (s : String)
  | readErr (e : String)
  deriving DecidableEq, Repr

/-- The scan loop: consume output lines, buffering `line ++ "\n"` into the
accumulator, until a line equal to `doneMarker`; when the lines run out,
report `scanner.Err()` if non-nil, else the buffered output.  The stream is
the pair (lines read before `Scan` returns false, terminal scan error). -/
def scanForMarker (doneMarker : String) (acc : String) :
    List String → Option String → ScanMsg
  | [], none => .output acc
  | [], some e => .readErr e
  | line :: rest, terr =>
      if line = doneMarker then .output acc
      else scanForMarker doneMarker (acc ++ line ++ "\n") rest terr

/-- Go's `strings.TrimSpace`: drop leading and trailing whitespace
(modelled structurally over the character list so it evaluates). -/
def trimSpace (s : String) : String :=
  ⟨(((s.data.dropWhile Char.isWhitespace).reverse.dropWhile
      Char.isWhitespace).reverse : List Char)⟩

/-- The success message `ExecuteCommand` formats. -/
def successText (output sessionID : String) (s : ShellSession) : String :=
  "Command executed in persistent shell.\nOutput: " ++ trimSpace output ++
    "\nSession ID: " ++ sessionID ++ "\nShell: " ++ s.shell ++
    " (PID: " ++ toString s.pid ++ ")"

instance : DecidableEq (Except String Nat)
  | .error a, .error b =>
      if h : a = b then .isTrue (by rw [h])
      else .isFalse (by intro hh; cases hh; exact h rfl)
  | .error _, .ok _ => .isFalse (by intro h; cases h)
  | .ok _, .error _ => .isFalse (by intro h; cases h)
  | .ok a, .ok b =>
      if h : a = b then .isTrue (by rw [h])
      else .isFalse (by intro hh; cases hh; exact h rfl)

/-- The environment one `ExecuteCommand` call runs in: the spawn outcome
(used only if the session must be created), the session's stdout stream as
the scanner will see it, the stdin write outcome, which side wins the
output-versus-deadline select, and the clock reading. -/
structure ExecEnv where
  spawnResult : Except String Nat
  stdoutLines : List String
  stdoutErr : Option String
  writeErr : Option String
  timeoutFires : Bool
  nowNano : Nat
  deriving DecidableEq, Repr

/-- Side effects of one `ExecuteCommand` call: the bytes written to the
session's stdin (empty when the write failed before taking effect) and the
processes it killed (none, ever: the function has no kill path). -/
structure ExecEffects where
  written : String
  killedPids : List Nat
  deriving DecidableEq, Repr

/-- `ExecuteCommand`: get or create the session, purge it and ask for a
retry if its process has exited, write the command plus sentinel echo,
then scan for the sentinel racing the deadline. -/
def ExecuteCommand (m : Manager) (sessionID command : String) (timeout : Nat)
    (shell : String) (captureStderr : Bool) (env : ExecEnv) :
    CallToolResult × Manager × ExecEffects :=
  match GetOrCreateSession m sessionID shell env.spawnResult env.nowNano with
  | .error e => (.error ("Failed to get session: " ++ e), m, ⟨"", []⟩)
  | .ok (session, m1) =>
    if session.exited then
      (.error "Shell session died, please retry",
        { m1 with sessions := sremove m1.sessions sessionID }, ⟨"", []⟩)
    else
      let commandMarker := "MCPCMD_" ++ toString env.nowNano
      let fullCommand := command ++ "\necho " ++ commandMarker ++ "_DONE\n"
      match env.writeErr with
      | some e => (.error ("Failed to write command: " ++ e), m1, ⟨"", []⟩)
      | none =>
        let doneMarker := commandMarker ++ "_DONE"
        if env.timeoutFires then
          (.error "Command timeout", m1, ⟨fullCommand, []⟩)
        else
          match scanForMarker doneMarker "" env.stdoutLines env.stdoutErr with
          | .output out =>
              let session2 := { session with lastUsed := env.nowNano }
              (.text (successText out sessionID session),
                { m1 with sessions := sset m1.sessions sessionID session2 },
                ⟨fullCommand, []⟩)
          | .readErr e =>
              (.error ("Error reading output: " ++ e), m1, ⟨fullCommand, []⟩)

/-- Side effects of closing sessions: whether stream handles were closed,
and the pids passed to `Process.Kill`. -/
structure CloseEffects where
  streamsClosed : Bool
  killedPids : List Nat
  deriving DecidableEq, Repr

/-- `CloseSession`: close the streams, kill the process and drop the entry;
`session not found` error, with no side effect, for an unknown id. -/
def CloseSession (m : Manager) (sessionID : String) :
    Except String Unit × Manager × CloseEffects :=
  match slookup m.sessions sessionID with
  | none => (.error ("session not found: " ++ sessionID), m, ⟨false, []⟩)
  | some s =>
      (.ok (), { m with sessions := sremove m.sessions sessionID },
        ⟨true, [s.pid]⟩)

/-- The idle threshold of the cleanup sweep: 30 minutes, in the nanosecond
units of the abstract clock. -/
def idleThresholdNanos : Nat := 30 * 60 * 1000000000

/-- One tick of `cleanupSessions`: drop (after closing streams and killing
the process) every session with `now - lastUsed > 30 minutes`; keep the
rest.  `Nat` subtraction truncates at zero exactly as the Go duration
comparison never fires for a `lastUsed` in the future. -/
def cleanupTick (m : Manager) (now : Nat) : Manager :=
  { m with sessions :=
      m.sessions.filter (fun p => !(now - p.2.lastUsed > idleThresholdNanos : Bool)) }

/-- A per-session row of `ListSessions`. -/
structure SessionInfo where
  shell : String
  created : Nat
  lastUsed : Nat
  pid : Nat
  alive : Bool
  deriving DecidableEq, Repr

/-- `ListSessions`: a read-only snapshot of the registry. -/
def ListSessions (m : Manager) : List (String × SessionInfo) :=
  m.sessions.map (fun p =>
    (p.1, { shell := p.2.shell, created := p.2.created, lastUsed := p.2.lastUsed,
            pid := p.2.pid, alive := !p.2.exited }))

/-- The registry operations that touch the session map. -/
inductive RegistryOp where
  | getOrCreate (sessionID shell : String)
  | execute (sessionID command : String) (timeout : Nat) (shell : String)
      (captureStderr : Bool)
  | close (sessionID : String)
  | sweep
  | listOp
  deriving DecidableEq, Repr

/-- The session map after one registry operation (`listOp` reads only). -/
def applyRegistryOp (m : Manager) (env : ExecEnv) : RegistryOp → Manager
  | .getOrCreate sid sh =>
      match GetOrCreateSession m sid sh env.spawnResult env.nowNano with
      | .error _ => m
      | .ok (_, m2) => m2
  | .execute sid c t sh cs => (ExecuteCommand m sid c t sh cs env).2.1
  | .close sid => (CloseSession m sid).2.1
  | .sweep => cleanupTick m env.nowNano
  | .listOp => m

/-! ## Concrete fixtures, used by several witnesses and counterexamples -/

/-- A sample event. -/
def evFix : Event := { type := "output", sessionID := "s1", data := "x", timestamp := 0 }

/-- A subscriber of scope `"s1"` whose queue is full. -/
def fullClient : Client :=
  { id := "c1", sessionID := "s1", channel := List.replicate clientQueueCap evFix }

/-- An empty-queue subscriber of the same scope. -/
def drainClient : Client := { id := "c2", sessionID := "s1", channel := [] }

/-- A subscriber registered with the wildcard scope. -/
def allClient : Client := { id := "c3", sessionID := "all", channel := [] }

/-- A broadcaster holding the three sample subscribers. -/
def bFix : Broadcaster := { clients := [fullClient, drainClient, allClient] }

/-- The Linux default configuration. -/
def cfgFix : Config := { defaultTimeout := 30, platform := "linux", shell := "/bin/bash" }

/-- A live session under id `"s1"`. -/
def aliveSession : ShellSession :=
  { id := "s1", pid := 42, exited := false, shell := "/bin/bash", workingDir := "",
    created := 0, lastUsed := 0 }

/-- The same session with its process exited. -/
def deadSession : ShellSession := { aliveSession with exited := true }

/-- A registry holding the live session. -/
def mAlive : Manager := { sessions := [("s1", aliveSession)], config := cfgFix }

/-- A registry holding the dead session. -/
def mDead : Manager := { sessions := [("s1", deadSession)], config := cfgFix }

/-- An environment whose stream ends cleanly (no scan error) after one line,
with no sentinel, no write failure and no timeout. -/
def envEOF : ExecEnv :=
  { spawnResult := .ok 99, stdoutLines := ["hello"], stdoutErr := none,
    writeErr := none, timeoutFires := false, nowNano := 5 }

/-- Well-formed single-shot arguments asking to run `ls` with defaults. -/
def argsFix : ExecArgs :=
  { command := some "ls", timeout := none, shell := none, captureStderr := none }

/-- An environment in which the deadline fires before the sentinel is seen. -/
def envTimeout : ExecEnv :=
  { spawnResult := .ok 99, stdoutLines := [], stdoutErr := none,
    writeErr := none, timeoutFires := true, nowNano := 5 }

/-- An environment whose stream carries one output line, then the sentinel
for clock reading 5, then a late line the scan never consumes. -/
def envMark : ExecEnv :=
  { spawnResult := .ok 99, stdoutLines := ["line one", "MCPCMD_5_DONE", "late"],
    stdoutErr := none, writeErr := none, timeoutFires := false, nowNano := 5 }

/-- An environment whose stream ends in a scanner error before any
sentinel. -/
def envReadErr : ExecEnv :=
  { spawnResult := .ok 99, stdoutLines := ["partial"],
    stdoutErr := some "read |0: input/output error",
    writeErr := none, timeoutFires := false, nowNano := 5 }

/-! ## Theorems -/

lemma deliverOne_eq (op : PublishOp) (now : Nat) (c : Client) :
    deliverOne op now c = if op.matches c then trySend c (op.event now) else c := by
  cases op <;> simp [deliverOne, PublishOp.matches, PublishOp.event]

lemma publish_clients (b : Broadcaster) (op : PublishOp) (now : Nat) :
    (publish b op now).clients = b.clients.map (deliverOne op now) := by
  cases op <;> rfl

lemma publish_clients_length (b : Broadcaster) (op : PublishOp) (now : Nat) :
    (publish b op now).clients.length = b.clients.length := by
  rw [publish_clients]; exact List.length_map _ _

lemma publish_clients_get (b : Broadcaster) (op : PublishOp) (now : Nat)
    (i : Nat) (h : i < b.clients.length) :
    ∃ h2 : i < (publish b op now).clients.length,
      (publish b op now).clients[i] = deliverOne op now (b.clients[i]) := by
  refine ⟨by rw [publish_clients_length]; exact h, ?_⟩
  simp [publish_clients]

lemma slookup_cons (hd : String × ShellSession) (tl : Sessions) (sid : String) :
    slookup (hd :: tl) sid = if hd.1 = sid then some hd.2 else slookup tl sid := by
  unfold slookup
  by_cases h : hd.1 = sid
  · rw [List.find?_cons_of_pos _ (by simpa using h), if_pos h]
    rfl
  · rw [List.find?_cons_of_neg _ (by simpa using h), if_neg h]

lemma sset_cons (hd : String × ShellSession) (tl : Sessions) (sid : String)
    (s : ShellSession) :
    sset (hd :: tl) sid s = if hd.1 = sid then sset tl sid s else hd :: sset tl sid s := by
  unfold sset
  by_cases h : hd.1 = sid
  · rw [if_pos h, List.filter_cons_of_neg (by simpa using h)]
  · rw [if_neg h, List.filter_cons_of_pos (by simpa using h)]
    rfl

lemma sremove_cons (hd : String × ShellSession) (tl : Sessions) (sid : String) :
    sremove (hd :: tl) sid =
      if hd.1 = sid then sremove tl sid else hd :: sremove tl sid := by
  unfold sremove
  by_cases h : hd.1 = sid
  · rw [if_pos h, List.filter_cons_of_neg (by simpa using h)]
  · rw [if_neg h, List.filter_cons_of_pos (by simpa using h)]

lemma slookup_sset_self (ss : Sessions) (sid : String) (s : ShellSession) :
    slookup (sset ss sid s) sid = some s := by
  induction ss with
  | nil =>
      show slookup [(sid, s)] sid = some s
      rw [slookup_cons, if_pos rfl]
  | cons hd tl ih =>
      rw [sset_cons]
      by_cases h : hd.1 = sid
      · rw [if_pos h]; exact ih
      · rw [if_neg h, slookup_cons, if_neg h]; exact ih

lemma slookup_sset_ne (ss : Sessions) (sid sid2 : String) (s : ShellSession)
    (h : sid2 ≠ sid) : slookup (sset ss sid s) sid2 = slookup ss sid2 := by
  induction ss with
  | nil =>
      show slookup [(sid, s)] sid2 = slookup [] sid2
      rw [slookup_cons, if_neg (fun hh => h hh.symm)]
  | cons hd tl ih =>
      rw [sset_cons]
      by_cases hk : hd.1 = sid
      · have hk2 : ¬ hd.1 = sid2 := fun hh => h ((hh.symm.trans hk).symm).symm
        rw [if_pos hk, slookup_cons, if_neg hk2]
        exact ih
      · rw [if_neg hk, slookup_cons, slookup_cons]
        by_cases hk2 : hd.1 = sid2
        · rw [if_pos hk2, if_pos hk2]
        · rw [if_neg hk2, if_neg hk2]; exact ih

lemma slookup_sremove_self (ss : Sessions) (sid : String) :
    slookup (sremove ss sid) sid = none := by
  induction ss with
  | nil => rfl
  | cons hd tl ih =>
      rw [sremove_cons]
      by_cases h : hd.1 = sid
      · rw [if_pos h]; exact ih
      · rw [if_neg h, slookup_cons, if_neg h]; exact ih

lemma slookup_sremove_ne (ss : Sessions) (sid sid2 : String) (h : sid2 ≠ sid) :
    slookup (sremove ss sid) sid2 = slookup ss sid2 := by
  induction ss with
  | nil => rfl
  | cons hd tl ih =>
      rw [sremove_cons]
      by_cases hk : hd.1 = sid
      · have hk2 : ¬ hd.1 = sid2 := fun hh => h (hh.symm.trans hk)
        rw [if_pos hk, slookup_cons, if_neg hk2]
        exact ih
      · rw [if_neg hk, slookup_cons, slookup_cons]
        by_cases hk2 : hd.1 = sid2
        · rw [if_pos hk2, if_pos hk2]
        · rw [if_neg hk2, if_neg hk2]; exact ih

lemma slookup_mem (ss : Sessions) (sid : String) (s : ShellSession)
    (h : slookup ss sid = some s) : (sid, s) ∈ ss := by
  induction ss with
  | nil => cases h
  | cons hd tl ih =>
      rw [slookup_cons] at h
      by_cases hk : hd.1 = sid
      · rw [if_pos hk] at h
        have hs : hd.2 = s := by injection h
        have : (sid, s) = hd := by
          cases hd with
          | mk a b => cases hk; cases hs; rfl
        rw [this]
        exact List.mem_cons_self _ _
      · rw [if_neg hk] at h
        exact List.mem_cons_of_mem _ (ih h)

/-- The output the scan buffers for a list of lines. -/
def linesBlob : List String → String
  | [] => ""
  | l :: rest => l ++ "\n" ++ linesBlob rest

lemma scanForMarker_eof (dm : String) (lines : List String) (acc : String)
    (h : dm ∉ lines) :
    scanForMarker dm acc lines none = .output (acc ++ linesBlob lines) := by
  induction lines generalizing acc with
  | nil => rw [scanForMarker, linesBlob, String.append_empty]
  | cons l rest ih =>
      have hne : l ≠ dm := fun hh => h (hh ▸ List.mem_cons_self l rest)
      have hrest : dm ∉ rest := fun hh => h (List.mem_cons_of_mem l hh)
      rw [scanForMarker, if_neg hne, ih _ hrest, linesBlob]
      simp [String.append_assoc]

lemma scanForMarker_err (dm : String) (lines : List String) (acc e : String)
    (h : dm ∉ lines) :
    scanForMarker dm acc lines (some e) = .readErr e := by
  induction lines generalizing acc with
  | nil => rfl
  | cons l rest ih =>
      have hne : l ≠ dm := fun hh => h (hh ▸ List.mem_cons_self l rest)
      have hrest : dm ∉ rest := fun hh => h (List.mem_cons_of_mem l hh)
      rw [scanForMarker, if_neg hne, ih _ hrest]

lemma scanForMarker_found (dm : String) (lines : List String) (acc : String)
    (terr : Option String) (h : dm ∈ lines) :
    scanForMarker dm acc lines terr =
      .output (acc ++ linesBlob (lines.takeWhile (fun l => l != dm))) := by
  induction lines generalizing acc with
  | nil => cases h
  | cons l rest ih =>
      by_cases hl : l = dm
      · rw [scanForMarker, if_pos hl, List.takeWhile_cons,
          if_neg (by simp [hl]), linesBlob, String.append_empty]
      · have hrest : dm ∈ rest := by
          cases h with
          | head => exact absurd rfl hl
          | tail _ hh => exact hh
        rw [scanForMarker, if_neg hl, ih _ hrest, List.takeWhile_cons,
          if_pos (by simp [hl]), linesBlob]
        simp [String.append_assoc]

/-- C7: a publish with a session-id target enqueues the event (queue space
permitting) to exactly the subscribers whose scope equals that target —
matching subscribers with room get the event appended, non-matching
subscribers are untouched — and a publish with the wildcard target `"all"`
(`BroadcastToAll`) enqueues the event to every registered subscriber
regardless of its scope. -/
theorem broadcast_scope_filtering (b : Broadcaster) (now : Nat) (i : Nat)
    (h : i < b.clients.length) :
    (∀ sid et d, ∃ h2 : i < (b.BroadcastToSession sid et d now).clients.length,
      ((b.clients[i]).sessionID = sid →
        (b.clients[i]).channel.length < clientQueueCap →
        ((b.BroadcastToSession sid et d now).clients[i]).channel =
          (b.clients[i]).channel ++
            [{ type := et, sessionID := sid, data := d, timestamp := now }]) ∧
      ((b.clients[i]).sessionID ≠ sid →
        (b.BroadcastToSession sid et d now).clients[i] = b.clients[i])) ∧
    (∀ et d, ∃ h2 : i < (b.BroadcastToAll et d now).clients.length,
      (b.clients[i]).channel.length < clientQueueCap →
        ((b.BroadcastToAll et d now).clients[i]).channel =
          (b.clients[i]).channel ++
            [{ type := et, sessionID := "all", data := d, timestamp := now }]) := by
  constructor
  · intro sid et d
    obtain ⟨h2, hg⟩ := publish_clients_get b (.toSession sid et d) now i h
    refine ⟨h2, ?_, ?_⟩
    · intro hm hlen
      rw [show (b.BroadcastToSession sid et d now).clients[i] =
            deliverOne (.toSession sid et d) now (b.clients[i]) from hg]
      simp [deliverOne, trySend, hm, hlen]
    · intro hm
      rw [show (b.BroadcastToSession sid et d now).clients[i] =
            deliverOne (.toSession sid et d) now (b.clients[i]) from hg]
      simp [deliverOne, hm]
  · intro et d
    obtain ⟨h2, hg⟩ := publish_clients_get b (.toAll et d) now i h
    refine ⟨h2, ?_⟩
    intro hlen
    rw [show (b.BroadcastToAll et d now).clients[i] =
          deliverOne (.toAll et d) now (b.clients[i]) from hg]
    simp [deliverOne, trySend, hlen]

/-- C7 witness: in the sample broadcaster, a session-targeted publish
appends the event to the draining same-scope subscriber's queue. -/
theorem broadcast_scope_filtering_witness :
    ((bFix.BroadcastToSession "s1" "output" "x" 7).clients.get
        ⟨1, by decide⟩).channel =
      [{ type := "output", sessionID := "s1", data := "x", timestamp := 7 }] := by
  obtain ⟨hA, _⟩ := broadcast_scope_filtering bFix 7 1 (by decide)
  obtain ⟨h2, hmatch, _⟩ := hA "s1" "output" "x"
  have hh := hmatch (by decide) (by decide)
  simpa using hh

/-- C4: when a matching subscriber's queue is full at publish time, the
event is dropped for that subscriber only — its queue is left unchanged —
while every subscriber's outcome is a function of its own queue alone
(so other matching subscribers are unaffected), and no queue ever grows
beyond the fixed capacity of 100 events.  The publish itself is a total
state transformer: it never blocks. -/
theorem publish_full_queue_drop (b : Broadcaster) (op : PublishOp) (now : Nat)
    (i : Nat) (h : i < b.clients.length)
    (hmatch : op.matches (b.clients[i]))
    (hfull : (b.clients[i]).channel.length = clientQueueCap) :
    ∃ h2 : i < (publish b op now).clients.length,
      (publish b op now).clients[i] = b.clients[i] ∧
      (∀ j (hj : j < b.clients.length)
          (hj2 : j < (publish b op now).clients.length),
        (publish b op now).clients[j] = deliverOne op now (b.clients[j])) ∧
      (∀ j (hj : j < b.clients.length)
          (hj2 : j < (publish b op now).clients.length),
        (b.clients[j]).channel.length ≤ clientQueueCap →
        ((publish b op now).clients[j]).channel.length ≤ clientQueueCap) := by
  obtain ⟨h2, hg⟩ := publish_clients_get b op now i h
  have hnlt : ¬ (b.clients[i]).channel.length < clientQueueCap := by
    rw [hfull]; exact lt_irrefl _
  refine ⟨h2, ?_, ?_, ?_⟩
  · rw [hg, deliverOne_eq, if_pos hmatch, trySend, if_neg hnlt]
  · intro j hj hj2
    obtain ⟨h3, hg3⟩ := publish_clients_get b op now j hj
    exact hg3
  · intro j hj hj2 hle
    obtain ⟨h3, hg3⟩ := publish_clients_get b op now j hj
    rw [show (publish b op now).clients[j] =
          deliverOne op now (b.clients[j]) from hg3, deliverOne_eq]
    by_cases hm : op.matches (b.clients[j])
    · rw [if_pos hm]
      by_cases hl : (b.clients[j]).channel.length < clientQueueCap
      · rw [trySend, if_pos hl]
        simp only [List.length_append, List.length_cons, List.length_nil]
        omega
      · rw [trySend, if_neg hl]
        exact hle
    · rw [if_neg hm]
      exact hle

/-- C4 witness: publishing to scope `"s1"` of the sample broadcaster leaves
the full subscriber's 100-event queue exactly as it was. -/
theorem publish_full_queue_drop_witness :
    (publish bFix (.toSession "s1" "output" "y") 9).clients.get ⟨0, by decide⟩ =
      fullClient := by
  obtain ⟨h2, hdrop, _, _⟩ :=
    publish_full_queue_drop bFix (.toSession "s1" "output" "y") 9 0 (by decide)
      (by simp [PublishOp.matches, bFix, fullClient])
      (by simp [bFix, fullClient, clientQueueCap])
  simpa using hdrop

/-- C10: a subscriber registered with scope `"all"` is untouched by every
session-targeted publish whose target differs from `"all"`, and its queue
changes only under a publish whose target scope is the wildcard `"all"`. -/
theorem allScope_receives_only_wildcard (b : Broadcaster) (now : Nat) (i : Nat)
    (h : i < b.clients.length)
    (hall : (b.clients[i]).sessionID = "all") :
    (∀ sid et d, sid ≠ "all" →
      ∃ h2 : i < (b.BroadcastToSession sid et d now).clients.length,
        (b.BroadcastToSession sid et d now).clients[i] = b.clients[i]) ∧
    (∀ op : PublishOp, ∀ h2 : i < (publish b op now).clients.length,
      (publish b op now).clients[i] ≠ b.clients[i] → op.target = "all") := by
  constructor
  · intro sid et d hsid
    obtain ⟨h2, hg⟩ := publish_clients_get b (.toSession sid et d) now i h
    refine ⟨h2, ?_⟩
    rw [show (b.BroadcastToSession sid et d now).clients[i] =
          deliverOne (.toSession sid et d) now (b.clients[i]) from hg]
    simp [deliverOne, hall, Ne.symm hsid]
  · intro op h2 hne
    cases op with
    | toSession sid et d =>
        by_cases hsid : sid = "all"
        · simpa [PublishOp.target] using hsid
        · exfalso
          apply hne
          obtain ⟨h3, hg⟩ := publish_clients_get b (.toSession sid et d) now i h
          rw [show (publish b (.toSession sid et d) now).clients[i] =
                deliverOne (.toSession sid et d) now (b.clients[i]) from hg]
          simp [deliverOne, hall, Ne.symm hsid]
    | toAll et d => rfl

/-- C10 witness: a publish targeted at session `"s1"` leaves the sample
wildcard-scoped subscriber exactly as it was. -/
theorem allScope_receives_only_wildcard_witness :
    (bFix.BroadcastToSession "s1" "output" "x" 7).clients.get ⟨2, by decide⟩ =
      allClient := by
  obtain ⟨hA, _⟩ := allScope_receives_only_wildcard bFix 7 2 (by decide) (by decide)
  obtain ⟨h2, heq⟩ := hA "s1" "output" "x" (by decide)
  simpa using heq

/-- C3 counterexample: when `cmd.Run` fails with an error other than an
`*exec.ExitError` (here a start failure: the shell binary is missing), the
single-shot result carries NO exit code — `exit_code` is never written into
the result map — refuting the claim that the exit code is present in every
case. -/
theorem single_shot_exit_code_absent :
    Executor.Execute cfgFix argsFix
        { stdout := "", stderr := "",
          err := some (.otherErr "fork/exec /bin/nosh: no such file or directory") } =
      .textResult
        { stdout := "", stderr := none, exitCode := none,
          errMsg := some "fork/exec /bin/nosh: no such file or directory",
          platform := "linux", shell := "/bin/bash", timeoutSeconds := 30,
          command := "ls" } := by
  rfl

/-- C3 (amended): on a supported platform with a non-empty command, the
result's exit code is 0 when the run succeeds and the `ExitCode()` of the
exit error (the OS exit code, or the distinguished -1 signal-kill value)
when the command fails with an exit status; but when the run fails with any
other error the result carries no exit code (only the error text), and the
unsupported-platform case returns a plain error result carrying no exit
code rather than a distinguished exit-code value. -/
theorem single_shot_exit_code (cfg : Config) (args : ExecArgs) (ro : RunOutcome)
    (c : String) (hc : args.command = some c) (hne : c ≠ "") :
    ((cfg.platform = "darwin" ∨ cfg.platform = "linux") →
      (ro.err = none → resultExitCode (Executor.Execute cfg args ro) = some 0) ∧
      (∀ code, ro.err = some (.exitErr code) →
        resultExitCode (Executor.Execute cfg args ro) = some code) ∧
      (∀ msg, ro.err = some (.otherErr msg) →
        resultExitCode (Executor.Execute cfg args ro) = none)) ∧
    (cfg.platform ≠ "darwin" → cfg.platform ≠ "linux" →
      Executor.Execute cfg args ro =
        .errorResult ("Platform " ++ cfg.platform ++ " not supported")) := by
  constructor
  · intro hplat
    refine ⟨?_, ?_, ?_⟩
    · intro herr
      simp [Executor.Execute, hc, hne, hplat, herr, resultExitCode]
    · intro code herr
      simp [Executor.Execute, hc, hne, hplat, herr, resultExitCode]
    · intro msg herr
      simp [Executor.Execute, hc, hne, hplat, herr, resultExitCode]
  · intro hd hl
    simp [Executor.Execute, hc, hne, hd, hl]

/-- C3 witness: a successful default run of `ls` on the Linux configuration
reports exit code 0. -/
theorem single_shot_exit_code_witness :
    resultExitCode (Executor.Execute cfgFix argsFix
        { stdout := "hello\n", stderr := "", err := none }) = some 0 := by
  have h := single_shot_exit_code cfgFix argsFix
    { stdout := "hello\n", stderr := "", err := none } "ls" rfl (by decide)
  exact (h.1 (Or.inr rfl)).1 rfl

lemma isSome_sset (ss : Sessions) (sid sid2 : String) (v s : ShellSession)
    (hs : slookup ss sid = some s) :
    (slookup (sset ss sid2 v) sid).isSome = true := by
  by_cases he : sid = sid2
  · subst he; rw [slookup_sset_self]; rfl
  · rw [slookup_sset_ne _ _ _ _ he, hs]; rfl

lemma readError_ne_timeout (e : String) :
    "Error reading output: " ++ e ≠ "Command timeout" := by
  intro h
  have hlen := congrArg String.length h
  rw [String.length_append] at hlen
  have h1 : ("Error reading output: " : String).length = 22 := rfl
  have h2 : ("Command timeout" : String).length = 15 := rfl
  rw [h1, h2] at hlen
  omega

lemma executeCommand_success (m : Manager) (sid cmd : String) (t : Nat)
    (sh : String) (cs : Bool) (env : ExecEnv) (s : ShellSession)
    (hs : slookup m.sessions sid = some s) (halive : s.exited = false)
    (hw : env.writeErr = none) (hto : env.timeoutFires = false)
    (hmark : ("MCPCMD_" ++ toString env.nowNano ++ "_DONE") ∈ env.stdoutLines) :
    (ExecuteCommand m sid cmd t sh cs env).1 =
      .text (successText
        (linesBlob (env.stdoutLines.takeWhile
          (fun l => l != "MCPCMD_" ++ toString env.nowNano ++ "_DONE")))
        sid { s with lastUsed := env.nowNano }) ∧
    (ExecuteCommand m sid cmd t sh cs env).2.2.written =
      cmd ++ "\necho " ++ ("MCPCMD_" ++ toString env.nowNano) ++ "_DONE\n" ∧
    slookup (ExecuteCommand m sid cmd t sh cs env).2.1.sessions sid =
      some { s with lastUsed := env.nowNano } := by
  have hscan := scanForMarker_found
    ("MCPCMD_" ++ toString env.nowNano ++ "_DONE") env.stdoutLines "" env.stdoutErr hmark
  refine ⟨?_, ?_, ?_⟩ <;>
    simp [ExecuteCommand, GetOrCreateSession, hs, halive, hw, hto, hscan,
      slookup_sset_self, String.empty_append]

lemma written_shape (cmd marker : String) :
    cmd ++ "\necho " ++ marker ++ "_DONE\n" =
      cmd ++ "\n" ++ "echo " ++ (marker ++ "_DONE") ++ "\n" := by
  have h1 : ("\necho " : String) = "\n" ++ "echo " := rfl
  have h2 : ("_DONE\n" : String) = "_DONE" ++ "\n" := rfl
  rw [h1, h2]
  simp [String.append_assoc]

/-- C6: on a normal persistent-session execution (live session, write
accepted, sentinel seen before the deadline) the bytes written to the
session's stdin are exactly the command text, a newline, `echo ` followed
by the per-invocation sentinel `MCPCMD_<clock>_DONE`, and a newline; and
the output handed to the result is the concatenation of the stream's lines
strictly before the first line equal to the sentinel (each restored with
its newline), the sentinel line itself being discarded. -/
theorem session_command_write_and_output (m : Manager) (sid cmd : String)
    (t : Nat) (sh : String) (cs : Bool) (env : ExecEnv) (s : ShellSession)
    (hs : slookup m.sessions sid = some s) (halive : s.exited = false)
    (hw : env.writeErr = none) (hto : env.timeoutFires = false)
    (hmark : ("MCPCMD_" ++ toString env.nowNano ++ "_DONE") ∈ env.stdoutLines) :
    (ExecuteCommand m sid cmd t sh cs env).2.2.written =
      cmd ++ "\n" ++ "echo " ++
        ("MCPCMD_" ++ toString env.nowNano ++ "_DONE") ++ "\n" ∧
    (ExecuteCommand m sid cmd t sh cs env).1 =
      .text (successText
        (linesBlob (env.stdoutLines.takeWhile
          (fun l => l != "MCPCMD_" ++ toString env.nowNano ++ "_DONE")))
        sid { s with lastUsed := env.nowNano }) := by
  obtain ⟨h1, h2, h3⟩ :=
    executeCommand_success m sid cmd t sh cs env s hs halive hw hto hmark
  refine ⟨?_, h1⟩
  rw [h2, written_shape]

/-- C6 witness: a concrete execution against the stream `["line one",
"MCPCMD_5_DONE", "late"]` writes exactly the framed command and returns
just the pre-sentinel line. -/
theorem session_command_write_and_output_witness :
    (ExecuteCommand mAlive "s1" "pwd" 30 "" false envMark).2.2.written =
      "pwd" ++ "\n" ++ "echo " ++
        ("MCPCMD_" ++ toString (5 : Nat) ++ "_DONE") ++ "\n" ∧
    (ExecuteCommand mAlive "s1" "pwd" 30 "" false envMark).1 =
      .text (successText
        (linesBlob (envMark.stdoutLines.takeWhile
          (fun l => l != "MCPCMD_" ++ toString (5 : Nat) ++ "_DONE")))
        "s1" { aliveSession with lastUsed := 5 }) := by
  exact session_command_write_and_output mAlive "s1" "pwd" 30 "" false envMark
    aliveSession rfl rfl rfl rfl (by decide)

/-- C5: when the deadline fires before the sentinel is observed, the
operation reports `Command timeout`, kills nothing, and keeps the session
registered (only its `lastUsed` refreshed), so a later command on the same
id — one whose sentinel does arrive — still succeeds. -/
theorem session_timeout_preserves (m : Manager) (sid cmd : String) (t : Nat)
    (sh : String) (cs : Bool) (env : ExecEnv) (s : ShellSession)
    (hs : slookup m.sessions sid = some s) (halive : s.exited = false)
    (hw : env.writeErr = none) (hto : env.timeoutFires = true) :
    (ExecuteCommand m sid cmd t sh cs env).1 = .error "Command timeout" ∧
    (ExecuteCommand m sid cmd t sh cs env).2.2.killedPids = [] ∧
    slookup (ExecuteCommand m sid cmd t sh cs env).2.1.sessions sid =
      some { s with lastUsed := env.nowNano } ∧
    (∀ (cmd2 : String) (env2 : ExecEnv),
      env2.writeErr = none → env2.timeoutFires = false →
      ("MCPCMD_" ++ toString env2.nowNano ++ "_DONE") ∈ env2.stdoutLines →
      (ExecuteCommand (ExecuteCommand m sid cmd t sh cs env).2.1 sid cmd2 t sh cs
          env2).1 =
        .text (successText
          (linesBlob (env2.stdoutLines.takeWhile
            (fun l => l != "MCPCMD_" ++ toString env2.nowNano ++ "_DONE")))
          sid { s with lastUsed := env2.nowNano })) := by
  have hred : slookup (ExecuteCommand m sid cmd t sh cs env).2.1.sessions sid =
      some { s with lastUsed := env.nowNano } := by
    simp [ExecuteCommand, GetOrCreateSession, hs, halive, hw, hto, slookup_sset_self]
  refine ⟨?_, ?_, hred, ?_⟩
  · simp [ExecuteCommand, GetOrCreateSession, hs, halive, hw, hto]
  · simp [ExecuteCommand, GetOrCreateSession, hs, halive, hw, hto]
  · intro cmd2 env2 hw2 hto2 hmark2
    have h2 := executeCommand_success (ExecuteCommand m sid cmd t sh cs env).2.1
      sid cmd2 t sh cs env2 { s with lastUsed := env.nowNano } hred
      (by simp [halive]) hw2 hto2 hmark2
    exact h2.1

/-- C5 witness: a concrete timed-out execution returns `Command timeout`,
kills no process and leaves the session registered with its timestamp
refreshed. -/
theorem session_timeout_preserves_witness :
    (ExecuteCommand mAlive "s1" "sleep 5" 1 "" false envTimeout).1 =
      .error "Command timeout" ∧
    (ExecuteCommand mAlive "s1" "sleep 5" 1 "" false envTimeout).2.2.killedPids =
      [] ∧
    slookup (ExecuteCommand mAlive "s1" "sleep 5" 1 "" false
        envTimeout).2.1.sessions "s1" =
      some { aliveSession with lastUsed := 5 } := by
  obtain ⟨h1, h2, h3, _⟩ := session_timeout_preserves mAlive "s1" "sleep 5" 1 ""
    false envTimeout aliveSession rfl rfl rfl rfl
  exact ⟨h1, h2, h3⟩

/-- C1 counterexample: with the live sample session and a stream that ends
cleanly (no scanner error) before any sentinel line, the operation returns
a SUCCESS text result carrying the partial output — not a ReadError —
refuting the claim that reaching end-of-stream before the sentinel yields a
distinct ReadError result rather than a success result. -/
theorem session_stream_end_counterexample :
    ("MCPCMD_5_DONE" ∉ envEOF.stdoutLines) ∧ envEOF.stdoutErr = none ∧
    (ExecuteCommand mAlive "s1" "ls" 30 "" false envEOF).1 =
      .text "Command executed in persistent shell.\nOutput: hello\nSession ID: s1\nShell: /bin/bash (PID: 42)" := by
  refine ⟨by decide, rfl, ?_⟩
  rfl

/-- C1 (amended): when the session's output stream ends before the sentinel
appears, the outcome depends on how it ended: a scanner error yields the
distinct `Error reading output` result — neither a timeout result nor a
success result — while a clean end-of-stream (EOF) yields a success result
carrying the output buffered so far. -/
theorem session_stream_end_result (m : Manager) (sid cmd : String) (t : Nat)
    (sh : String) (cs : Bool) (env : ExecEnv) (s : ShellSession)
    (hs : slookup m.sessions sid = some s) (halive : s.exited = false)
    (hw : env.writeErr = none) (hto : env.timeoutFires = false)
    (hnomark : ("MCPCMD_" ++ toString env.nowNano ++ "_DONE") ∉ env.stdoutLines) :
    (∀ e, env.stdoutErr = some e →
      (ExecuteCommand m sid cmd t sh cs env).1 =
        .error ("Error reading output: " ++ e) ∧
      (ExecuteCommand m sid cmd t sh cs env).1 ≠ .error "Command timeout" ∧
      (∀ msg, (ExecuteCommand m sid cmd t sh cs env).1 ≠ .text msg)) ∧
    (env.stdoutErr = none →
      (ExecuteCommand m sid cmd t sh cs env).1 =
        .text (successText (linesBlob env.stdoutLines) sid
          { s with lastUsed := env.nowNano })) := by
  constructor
  · intro e herr
    have hscan := scanForMarker_err ("MCPCMD_" ++ toString env.nowNano ++ "_DONE")
      env.stdoutLines "" e hnomark
    have hres : (ExecuteCommand m sid cmd t sh cs env).1 =
        .error ("Error reading output: " ++ e) := by
      simp [ExecuteCommand, GetOrCreateSession, hs, halive, hw, hto, herr, hscan]
    refine ⟨hres, ?_, ?_⟩
    · rw [hres]
      intro hcontra
      apply readError_ne_timeout e
      injection hcontra
    · intro msg
      rw [hres]
      intro hcontra
      exact CallToolResult.noConfusion hcontra
  · intro herr
    have hscan := scanForMarker_eof ("MCPCMD_" ++ toString env.nowNano ++ "_DONE")
      env.stdoutLines "" hnomark
    simp [ExecuteCommand, GetOrCreateSession, hs, halive, hw, hto, herr, hscan,
      String.empty_append]

/-- C1 witness: a stream that dies with a scanner error before the sentinel
produces the distinct read-error result. -/
theorem session_stream_end_result_witness :
    (ExecuteCommand mAlive "s1" "ls" 30 "" false envReadErr).1 =
      .error ("Error reading output: " ++ "read |0: input/output error") := by
  have h := session_stream_end_result mAlive "s1" "ls" 30 "" false envReadErr
    aliveSession rfl rfl rfl rfl (by decide)
  exact (h.1 "read |0: input/output error" rfl).1

lemma executeCommand_not_removed (m : Manager) (sid2 c : String) (t : Nat)
    (sh : String) (cs : Bool) (env : ExecEnv) (sid : String) (s : ShellSession)
    (hs : slookup m.sessions sid = some s)
    (hgone : (slookup (ExecuteCommand m sid2 c t sh cs env).2.1.sessions
        sid).isSome = false) :
    sid = sid2 ∧ ∃ s0, slookup m.sessions sid2 = some s0 ∧ s0.exited = true := by
  cases hl : slookup m.sessions sid2 with
  | some s0 =>
      cases hex : s0.exited with
      | true =>
          by_cases he : sid = sid2
          · exact ⟨he, s0, rfl, hex⟩
          · exfalso
            simp [ExecuteCommand, GetOrCreateSession, hl, hex] at hgone
            rw [slookup_sremove_ne _ _ _ he, slookup_sset_ne _ _ _ _ he, hs]
              at hgone
            simp at hgone
      | false =>
          exfalso
          cases hwe : env.writeErr with
          | some e =>
              simp [ExecuteCommand, GetOrCreateSession, hl, hex, hwe] at hgone
              by_cases he : sid = sid2
              · subst he; rw [slookup_sset_self] at hgone; simp at hgone
              · rw [slookup_sset_ne _ _ _ _ he, hs] at hgone; simp at hgone
          | none =>
              cases hto : env.timeoutFires with
              | true =>
                  simp [ExecuteCommand, GetOrCreateSession, hl, hex, hwe, hto]
                    at hgone
                  by_cases he : sid = sid2
                  · subst he; rw [slookup_sset_self] at hgone; simp at hgone
                  · rw [slookup_sset_ne _ _ _ _ he, hs] at hgone; simp at hgone
              | false =>
                  cases hscan : scanForMarker
                      ("MCPCMD_" ++ toString env.nowNano ++ "_DONE") ""
                      env.stdoutLines env.stdoutErr with
                  | output out =>
                      simp [ExecuteCommand, GetOrCreateSession, hl, hex, hwe,
                        hto, hscan] at hgone
                      by_cases he : sid = sid2
                      · subst he; rw [slookup_sset_self] at hgone
                        simp at hgone
                      · rw [slookup_sset_ne _ _ _ _ he,
                          slookup_sset_ne _ _ _ _ he, hs] at hgone
                        simp at hgone
                  | readErr e =>
                      simp [ExecuteCommand, GetOrCreateSession, hl, hex, hwe,
                        hto, hscan] at hgone
                      by_cases he : sid = sid2
                      · subst he; rw [slookup_sset_self] at hgone
                        simp at hgone
                      · rw [slookup_sset_ne _ _ _ _ he, hs] at hgone
                        simp at hgone
  | none =>
      exfalso
      cases hsp : env.spawnResult with
      | error e =>
          simp [ExecuteCommand, GetOrCreateSession, hl, hsp] at hgone
          rw [hs] at hgone
          simp at hgone
      | ok pid =>
          cases hwe : env.writeErr with
          | some e =>
              simp [ExecuteCommand, GetOrCreateSession, hl, hsp, hwe] at hgone
              by_cases he : sid = sid2
              · subst he; rw [slookup_sset_self] at hgone; simp at hgone
              · rw [slookup_sset_ne _ _ _ _ he, hs] at hgone; simp at hgone
          | none =>
              cases hto : env.timeoutFires with
              | true =>
                  simp [ExecuteCommand, GetOrCreateSession, hl, hsp, hwe, hto]
                    at hgone
                  by_cases he : sid = sid2
                  · subst he; rw [slookup_sset_self] at hgone; simp at hgone
                  · rw [slookup_sset_ne _ _ _ _ he, hs] at hgone; simp at hgone
              | false =>
                  cases hscan : scanForMarker
                      ("MCPCMD_" ++ toString env.nowNano ++ "_DONE") ""
                      env.stdoutLines env.stdoutErr with
                  | output out =>
                      simp [ExecuteCommand, GetOrCreateSession, hl, hsp, hwe,
                        hto, hscan] at hgone
                      by_cases he : sid = sid2
                      · subst he; rw [slookup_sset_self] at hgone
                        simp at hgone
                      · rw [slookup_sset_ne _ _ _ _ he,
                          slookup_sset_ne _ _ _ _ he, hs] at hgone
                        simp at hgone
                  | readErr e =>
                      simp [ExecuteCommand, GetOrCreateSession, hl, hsp, hwe,
                        hto, hscan] at hgone
                      by_cases he : sid = sid2
                      · subst he; rw [slookup_sset_self] at hgone
                        simp at hgone
                      · rw [slookup_sset_ne _ _ _ _ he, hs] at hgone
                        simp at hgone

/-- C2 counterexample: on a registry holding a session whose process has
exited, a persistent `execute` on that id removes the entry from the map —
an operation that is neither the idle sweep nor an explicit close —
refuting the claim that only those two operations remove entries. -/
theorem registry_removal_counterexample :
    hasSession mDead "s1" = true ∧
    hasSession (applyRegistryOp mDead envEOF
        (.execute "s1" "ls" 30 "" false)) "s1" = false := by
  constructor
  · rfl
  · rfl

/-- C2 (amended): a session entry is removed from the registry only by the
periodic idle sweep (when the entry has sat idle past the threshold), by an
explicit close on its id, or by a persistent execute on its id that finds
the session's process already exited (the lazy dead-session purge);
`getOrCreate` and `list` never remove entries. -/
theorem registry_removal_sources (m : Manager) (env : ExecEnv) (op : RegistryOp)
    (sid : String) (hb : hasSession m sid = true)
    (ha : hasSession (applyRegistryOp m env op) sid = false) :
    (∃ c t sh cs, op = .execute sid c t sh cs ∧
       ∃ s0, slookup m.sessions sid = some s0 ∧ s0.exited = true) ∨
    op = .close sid ∨
    (op = .sweep ∧
       ∃ s0, slookup m.sessions sid = some s0 ∧
         env.nowNano - s0.lastUsed > idleThresholdNanos) := by
  have hex : ∃ s, slookup m.sessions sid = some s := by
    simp only [hasSession] at hb
    exact Option.isSome_iff_exists.mp hb
  obtain ⟨s, hs⟩ := hex
  cases op with
  | getOrCreate sid3 sh3 =>
      exfalso
      simp only [hasSession] at ha
      cases hl : slookup m.sessions sid3 with
      | some s0 =>
          simp [applyRegistryOp, GetOrCreateSession, hl] at ha
          by_cases he : sid = sid3
          · subst he; rw [slookup_sset_self] at ha; simp at ha
          · rw [slookup_sset_ne _ _ _ _ he, hs] at ha; simp at ha
      | none =>
          cases hsp : env.spawnResult with
          | error e =>
              simp [applyRegistryOp, GetOrCreateSession, hl, hsp] at ha
              rw [hs] at ha; simp at ha
          | ok pid =>
              simp [applyRegistryOp, GetOrCreateSession, hl, hsp] at ha
              by_cases he : sid = sid3
              · subst he; rw [slookup_sset_self] at ha; simp at ha
              · rw [slookup_sset_ne _ _ _ _ he, hs] at ha; simp at ha
  | execute sid3 c3 t3 sh3 cs3 =>
      have hgone : (slookup (ExecuteCommand m sid3 c3 t3 sh3 cs3
          env).2.1.sessions sid).isSome = false := by
        simpa [applyRegistryOp, hasSession] using ha
      obtain ⟨he, s0, hl0, hex0⟩ :=
        executeCommand_not_removed m sid3 c3 t3 sh3 cs3 env sid s hs hgone
      refine Or.inl ⟨c3, t3, sh3, cs3, by rw [he], s0, ?_, hex0⟩
      rw [he]
      exact hl0
  | close sid3 =>
      cases hl : slookup m.sessions sid3 with
      | none =>
          exfalso
          simp only [hasSession] at ha
          simp [applyRegistryOp, CloseSession, hl] at ha
          rw [hs] at ha
          simp at ha
      | some s0 =>
          by_cases he : sid = sid3
          · exact Or.inr (Or.inl (by rw [he]))
          · exfalso
            simp only [hasSession] at ha
            simp [applyRegistryOp, CloseSession, hl] at ha
            rw [slookup_sremove_ne _ _ _ he, hs] at ha
            simp at ha
  | sweep =>
      refine Or.inr (Or.inr ⟨rfl, s, hs, ?_⟩)
      by_contra hnot
      have hmem : (sid, s) ∈ m.sessions := slookup_mem _ _ _ hs
      have hmem2 : (sid, s) ∈ (applyRegistryOp m env .sweep).sessions := by
        simp only [applyRegistryOp, cleanupTick]
        rw [List.mem_filter]
        refine ⟨hmem, ?_⟩
        simp [hnot]
      simp only [hasSession] at ha
      unfold slookup at ha
      cases hf : (applyRegistryOp m env RegistryOp.sweep).sessions.find?
          (fun p => p.1 == sid) with
      | none =>
          rw [List.find?_eq_none] at hf
          exact hf (sid, s) hmem2 (by simp)
      | some p =>
          rw [hf] at ha
          simp at ha
  | listOp =>
      exfalso
      simp only [hasSession, applyRegistryOp] at ha
      rw [hs] at ha
      simp at ha

/-- C2 witness: removing the live sample session by an explicit close is
accounted for by the close disjunct of the removal characterization. -/
theorem registry_removal_sources_witness :
    (∃ c t sh cs, RegistryOp.close "s1" = .execute "s1" c t sh cs ∧
       ∃ s0, slookup mAlive.sessions "s1" = some s0 ∧ s0.exited = true) ∨
    RegistryOp.close "s1" = .close "s1" ∨
    (RegistryOp.close "s1" = .sweep ∧
       ∃ s0, slookup mAlive.sessions "s1" = some s0 ∧
         envEOF.nowNano - s0.lastUsed > idleThresholdNanos) := by
  exact registry_removal_sources mAlive envEOF (.close "s1") "s1" rfl (by decide)

/-- C8: closing an id that is not in the registry returns the NotFound
error, leaves the registry untouched and performs no stream close and no
process kill; consequently, after a successful close of some id, a second
close on the same id returns NotFound with no side effect — the process is
never double-freed. -/
theorem close_not_found_idempotent (m : Manager) (sid : String) :
    (slookup m.sessions sid = none →
      CloseSession m sid =
        (.error ("session not found: " ++ sid), m,
          { streamsClosed := false, killedPids := [] })) ∧
    (∀ s, slookup m.sessions sid = some s →
      (CloseSession m sid).1 = .ok () ∧
      CloseSession (CloseSession m sid).2.1 sid =
        (.error ("session not found: " ++ sid), (CloseSession m sid).2.1,
          { streamsClosed := false, killedPids := [] })) := by
  constructor
  · intro h
    simp [CloseSession, h]
  · intro s h
    constructor
    · simp [CloseSession, h]
    · have hred : (CloseSession m sid).2.1 =
          { m with sessions := sremove m.sessions sid } := by
        simp [CloseSession, h]
      rw [hred]
      simp [CloseSession, slookup_sremove_self]

/-- C8 witness: the concrete one-session registry — close on an unknown id
errors with no effect, and a close then re-close of `"s1"` hits NotFound
the second time. -/
theorem close_not_found_idempotent_witness :
    CloseSession mAlive "nope" =
      (.error ("session not found: " ++ "nope"), mAlive,
        { streamsClosed := false, killedPids := [] }) ∧
    (CloseSession mAlive "s1").1 = .ok () ∧
    CloseSession (CloseSession mAlive "s1").2.1 "s1" =
      (.error ("session not found: " ++ "s1"), (CloseSession mAlive "s1").2.1,
        { streamsClosed := false, killedPids := [] }) := by
  have h1 := (close_not_found_idempotent mAlive "nope").1 rfl
  have h2 := (close_not_found_idempotent mAlive "s1").2 aliveSession rfl
  exact ⟨h1, h2.1, h2.2⟩

/-- C9: `GetOrCreateSession` on an id already in the registry returns the
stored session with only its `lastUsed` timestamp refreshed — its shell
path, process id, creation time, liveness and working directory keep their
creation-time values — no matter what shell override the call supplies,
and the registry keeps that same session under the id. -/
theorem getOrCreate_existing_frame (m : Manager) (sid ov : String)
    (spawnResult : Except String Nat) (now : Nat) (s : ShellSession)
    (hs : slookup m.sessions sid = some s) :
    GetOrCreateSession m sid ov spawnResult now =
      .ok ({ s with lastUsed := now },
        { m with sessions := sset m.sessions sid { s with lastUsed := now } }) ∧
    ({ s with lastUsed := now } : ShellSession).shell = s.shell ∧
    ({ s with lastUsed := now } : ShellSession).pid = s.pid ∧
    ({ s with lastUsed := now } : ShellSession).created = s.created ∧
    ({ s with lastUsed := now } : ShellSession).exited = s.exited ∧
    ({ s with lastUsed := now } : ShellSession).workingDir = s.workingDir := by
  refine ⟨?_, rfl, rfl, rfl, rfl, rfl⟩
  simp [GetOrCreateSession, hs]

/-- C9 witness: asking for the existing `"s1"` session with a different
shell override (`/bin/zsh`) returns the stored `/bin/bash` session, with
only `lastUsed` moved to the new clock reading. -/
theorem getOrCreate_existing_frame_witness :
    GetOrCreateSession mAlive "s1" "/bin/zsh" (.ok 77) 9 =
      .ok ({ aliveSession with lastUsed := 9 },
        Manager.mk (sset mAlive.sessions "s1" { aliveSession with lastUsed := 9 })
          cfgFix) := by
  exact (getOrCreate_existing_frame mAlive "s1" "/bin/zsh" (.ok 77) 9
    aliveSession rfl).1
